import Mathlib

/-!
Shallow embedding of the Mental-Health-Chatbot backend
(`backend_groqwinsights.py`) and proofs about it.

Python strings are modelled as `List Char`; the nondeterministic outcome of
each outbound Groq gateway call is a `GatewayResult` parameter (either the
completion text, or `err` standing for any raised exception); timestamps and
the formatted session-duration string are opaque inputs.
-/

namespace MHB

/-- Characters of a string literal, the `List Char` view of a Python string. -/
def chars (s : String) : List Char := s.data

/-- `startsWithL n h`: the list `n` is an initial segment of `h`. -/
def startsWithL : List Char → List Char → Bool
  | [], _ => true
  | _ :: _, [] => false
  | a :: as, b :: bs => a == b && startsWithL as bs

/-- `hasSub n h`: Python's `n in h` substring containment test. -/
def hasSub (needle : List Char) : List Char → Bool
  | [] => startsWithL needle []
  | h :: t => startsWithL needle (h :: t) || hasSub needle t

/-- Python `str.lower()` (ASCII case folding, as `Char.toLower` does). -/
def toLowerL (s : List Char) : List Char := s.map Char.toLower

def isWs (c : Char) : Bool := c.isWhitespace

/-- Python `str.strip()`: drop leading and trailing whitespace. -/
def stripL (s : List Char) : List Char :=
  ((s.dropWhile isWs).reverse.dropWhile isWs).reverse

/-- Python slice `xs[-n:]`: the last `min n (length xs)` elements. -/
def lastN (n : Nat) (xs : List α) : List α := xs.drop (xs.length - n)

/-- Outcome of one call to `GroqClient.chat`: the completion text, or any
raised exception (network error, non-2xx status, malformed body, missing key). -/
inductive GatewayResult where
  | ok (text : List Char)
  | err
deriving DecidableEq

/-- One entry of `ConversationContext.memory` (the dict appended in `add_turn`). -/
structure Turn where
  timestamp : List Char
  user : List Char
  bot : List Char
  emotion : List Char
deriving DecidableEq

/-- `ConversationContext`: `memory` is the `deque(maxlen=5)` of turns,
`emotions` the unbounded list of classified emotion labels. -/
structure ConversationContext where
  memory : List Turn
  emotions : List (List Char)
deriving DecidableEq

def max_context : Nat := 5

def ConversationContext.init : ConversationContext := ⟨[], []⟩

/-- `ConversationContext.add_turn`: append the turn to the bounded deque
(the deque drops its oldest entry when past `maxlen`), and append the emotion
to the unbounded log when it is truthy (non-empty). -/
def add_turn (ctx : ConversationContext) (ts user bot emotion : List Char) :
    ConversationContext :=
  { memory := lastN max_context (ctx.memory ++ [⟨ts, user, bot, emotion⟩]),
    emotions := if emotion = [] then ctx.emotions else ctx.emotions ++ [emotion] }

/-- The f-string `f"User: {turn['user']}\nBot: {turn['bot']}"` of `get_context`. -/
def fmtTurn (t : Turn) : List Char :=
  chars "User: " ++ t.user ++ chars "\nBot: " ++ t.bot

/-- `ConversationContext.get_context`: the last two stored turns, formatted. -/
def get_context (ctx : ConversationContext) : List (List Char) :=
  lastN 2 (ctx.memory.map fmtTurn)

/-- Python `"\n".join(parts)`. -/
def joinNL : List (List Char) → List Char
  | [] => []
  | [x] => x
  | x :: y :: rest => x ++ chars "\n" ++ joinNL (y :: rest)

/-- `self.emotion_categories`, in declaration order. -/
def emotion_categories : List (List Char) :=
  [chars "depression", chars "anxiety", chars "anger",
   chars "self_harm", chars "positive", chars "neutral"]

/-- The `for category in self.emotion_categories: if category in result: return category`
loop of `classify_emotion`, with its `return "neutral"` fallback. -/
def classifyLoop : List (List Char) → List Char → List Char
  | [], _ => chars "neutral"
  | c :: rest, result => if hasSub c result then c else classifyLoop rest result

/-- `MentalHealthChatbot.classify_emotion`, as a function of the gateway
call's outcome: on success the raw completion is stripped, lower-cased and
scanned by `classifyLoop`; any exception yields `"neutral"`. -/
def classify_emotion (gw : GatewayResult) : List Char :=
  match gw with
  | .ok raw => classifyLoop emotion_categories (toLowerL (stripL raw))
  | .err => chars "neutral"

/-- The fixed apology returned by `generate_response` on gateway failure. -/
def apology : List Char :=
  chars "I\x27m having trouble generating a response right now. Please try again later."

/-- `MentalHealthChatbot.generate_response`: the completion text on success,
the fixed apology on any exception. `user_input`, `emotion` and `context`
only shape the outbound prompt. -/
def generate_response (user_input emotion context : List Char)
    (gw : GatewayResult) : List Char :=
  match gw with
  | .ok text => text
  | .err => apology

/-- The `emotional_balance` sub-dict: counts keyed `positive`/`neutral`/`negative`. -/
structure EmotionalBalance where
  positive : Nat
  neutral : Nat
  negative : Nat
deriving DecidableEq

/-- The mood-insights dict. `urgent_intervention_needed` is `Option Bool`
because the Python dict only carries that key when a branch sets it. -/
structure MoodInsights where
  current_mood : List Char
  risk_level : List Char
  emotional_balance : EmotionalBalance
  suggestions : List (List Char)
  urgent_intervention_needed : Option Bool
deriving DecidableEq

def positive_emotions : List (List Char) := [chars "positive"]

def negative_emotions : List (List Char) :=
  [chars "depression", chars "anxiety", chars "anger", chars "self_harm"]

/-- One iteration of the balance loop in `_generate_mood_insights`. -/
def tallyStep (b : EmotionalBalance) (e : List Char) : EmotionalBalance :=
  if e ∈ positive_emotions then { b with positive := b.positive + 1 }
  else if e ∈ negative_emotions then { b with negative := b.negative + 1 }
  else { b with neutral := b.neutral + 1 }

/-- The balance loop of `_generate_mood_insights` over `recent_emotions`. -/
def tallyBalance (recent : List (List Char)) : EmotionalBalance :=
  recent.foldl tallyStep ⟨0, 0, 0⟩

def self_harm_suggestions : List (List Char) :=
  [chars "üö® Please reach out to a crisis hotline immediately.",
   chars "Your life has value, and there is help available.",
   chars "Consider speaking with a mental health professional."]

def positive_suggestions : List (List Char) :=
  [chars "That\x27s wonderful! What can you do to keep this positive feeling going?",
   chars "Remember to savor these moments of joy.",
   chars "Keep practicing self-awareness and gratitude."]

def neutral_suggestions : List (List Char) :=
  [chars "How you\x27re feeling is valid and important.",
   chars "I\x27m here to listen to whatever you\x27d like to share.",
   chars "Sometimes just having someone to talk to can be helpful."]

/-- `MentalHealthChatbot._generate_mood_insights`: balance over the last 5
logged emotions, then risk level / suggestions / urgent key dispatched on the
current emotion alone. Only the `self_harm` branch ever sets the
`urgent_intervention_needed` key. -/
def generate_mood_insights (current_emotion : List Char)
    (emotions : List (List Char)) : MoodInsights :=
  let balance := tallyBalance (lastN 5 emotions)
  if current_emotion = chars "self_harm" then
    { current_mood := current_emotion, risk_level := chars "high",
      emotional_balance := balance,
      suggestions := self_harm_suggestions,
      urgent_intervention_needed := some true }
  else if current_emotion ∈ [chars "depression", chars "anxiety", chars "anger"] then
    { current_mood := current_emotion, risk_level := chars "moderate",
      emotional_balance := balance,
      suggestions :=
        [chars "It\x27s okay to feel " ++ current_emotion ++
           chars ". Try to take a few deep breaths.",
         chars "Consider taking some time for self-care today.",
         chars "Reach out to someone you trust to talk."],
      urgent_intervention_needed := none }
  else if current_emotion = chars "positive" then
    { current_mood := current_emotion, risk_level := chars "low",
      emotional_balance := balance,
      suggestions := positive_suggestions,
      urgent_intervention_needed := none }
  else
    { current_mood := current_emotion, risk_level := chars "low",
      emotional_balance := balance,
      suggestions := neutral_suggestions,
      urgent_intervention_needed := none }

/-- `session_stats` of a successful `process_message` result. -/
structure SessionStats where
  message_count : Nat
  session_duration : List Char
deriving DecidableEq

/-- The `data` dict of a chat response. `session_stats` is optional because
the error payload built in the `/chat` route omits that key. -/
structure ChatData where
  bot_response : List Char
  mood_insights : MoodInsights
  urgent_intervention_needed : Bool
  session_stats : Option SessionStats
deriving DecidableEq

/-- The dict returned by `process_message`. -/
structure ProcessResult where
  success : Bool
  data : ChatData
deriving DecidableEq

/-- `MentalHealthChatbot` state: its context and running message counter
(the session-start timestamp only feeds the opaque duration string). -/
structure MentalHealthChatbot where
  context : ConversationContext
  message_count : Nat
deriving DecidableEq

def MentalHealthChatbot.init : MentalHealthChatbot := ⟨ConversationContext.init, 0⟩

/-- The inputs of one `process_message` call: the user text, the outcomes of
the two gateway calls, and the opaque timestamp / duration strings. -/
structure MsgInput where
  text : List Char
  classifyGw : GatewayResult
  generateGw : GatewayResult
  ts : List Char
  dur : List Char

/-- `MentalHealthChatbot.process_message`: classify, build context, generate,
append the turn, derive insights from the updated emotion log, bump the
counter, and assemble the result dict. -/
def process_message (bot : MentalHealthChatbot) (m : MsgInput) :
    MentalHealthChatbot × ProcessResult :=
  let emotion := classify_emotion m.classifyGw
  let context_text := joinNL (get_context bot.context)
  let bot_response := generate_response m.text emotion context_text m.generateGw
  let ctx1 := add_turn bot.context m.ts m.text bot_response emotion
  let mood_insights := generate_mood_insights emotion ctx1.emotions
  let urgent := mood_insights.urgent_intervention_needed.getD false
  let count1 := bot.message_count + 1
  (⟨ctx1, count1⟩,
   { success := true,
     data := { bot_response := bot_response,
               mood_insights := mood_insights,
               urgent_intervention_needed := urgent,
               session_stats := some ⟨count1, m.dur⟩ } })

/-- The state after one processed message (first component of `process_message`). -/
def stepBot (bot : MentalHealthChatbot) (m : MsgInput) : MentalHealthChatbot :=
  (process_message bot m).1

/-- A session's state after a sequence of processed messages. -/
def runMessages (bot : MentalHealthChatbot) (ms : List MsgInput) : MentalHealthChatbot :=
  ms.foldl stepBot bot

/-- The degraded `data` payload hard-coded in the `/chat` route's
`except` branch; note it carries no `session_stats` key. -/
def errorPayloadData : ChatData :=
  { bot_response := chars "I\x27m having a technical issue. Please try again.",
    mood_insights :=
      { current_mood := chars "neutral", risk_level := chars "low",
        emotional_balance := ⟨0, 1, 0⟩,
        suggestions := [chars "Please try again in a moment"],
        urgent_intervention_needed := none },
    urgent_intervention_needed := false,
    session_stats := none }

/-- The top-level JSON body of a `/chat` response. -/
structure ChatResponse where
  success : Bool
  error : Option (List Char)
  data : Option ChatData
deriving DecidableEq

/-- How the orchestration inside the `/chat` route's `try` block ended. -/
inductive Orchestration where
  | completed (r : ProcessResult)
  | raised

/-- The `try`/`except` dispatch of the `/chat` route: a completed
`process_message` result is serialized with status 200, any exception is
turned into the fixed 500 payload. -/
def chatDispatch (o : Orchestration) : Nat × ChatResponse :=
  match o with
  | .completed r => (200, { success := r.success, error := none, data := some r.data })
  | .raised =>
    (500, { success := false,
            error := some (chars "Server error during chat processing."),
            data := some errorPayloadData })

/-! ## Helper lemmas -/

theorem startsWithL_refl_append (n b : List Char) : startsWithL n (n ++ b) = true := by
  induction n with
  | nil => rfl
  | cons a as ih => simp [startsWithL, ih]

theorem hasSub_here (n b : List Char) : hasSub n (n ++ b) = true := by
  cases hn : n ++ b with
  | nil =>
    have : n = [] := by
      cases n with
      | nil => rfl
      | cons x xs => simp at hn
    subst this
    rfl
  | cons x xs =>
    rw [hasSub, ← hn, startsWithL_refl_append]
    simp

theorem hasSub_mono (a n h : List Char) (hh : hasSub n h = true) :
    hasSub n (a ++ h) = true := by
  induction a with
  | nil => simpa using hh
  | cons x xs ih =>
    rw [List.cons_append, hasSub, Bool.or_eq_true]
    exact Or.inr ih

theorem hasSub_of_split (n a b : List Char) : hasSub n (a ++ (n ++ b)) = true :=
  hasSub_mono a n (n ++ b) (hasSub_here n b)

theorem classifyLoop_eq_find (cats : List (List Char)) (r : List Char) :
    classifyLoop cats r = ((cats.find? fun c => hasSub c r).getD (chars "neutral")) := by
  induction cats with
  | nil => rfl
  | cons c rest ih =>
    rw [classifyLoop, List.find?]
    cases hc : hasSub c r <;> simp [hc, ih]

theorem classifyLoop_mem_or (cats : List (List Char)) (r : List Char) :
    classifyLoop cats r ∈ cats ∨ classifyLoop cats r = chars "neutral" := by
  induction cats with
  | nil => exact Or.inr rfl
  | cons c rest ih =>
    by_cases hc : hasSub c r = true
    · rw [classifyLoop, if_pos hc]
      simp
    · rw [classifyLoop, if_neg hc]
      rcases ih with h | h
      · exact Or.inl (List.mem_cons_of_mem _ h)
      · exact Or.inr h

theorem classify_emotion_ne_nil (gw : GatewayResult) : classify_emotion gw ≠ [] := by
  cases gw with
  | err => simp [classify_emotion, chars]
  | ok raw =>
    rw [classify_emotion]
    rcases classifyLoop_mem_or emotion_categories (toLowerL (stripL raw)) with h | h
    · intro hnil
      rw [hnil] at h
      revert h
      decide
    · rw [h]
      simp [chars]

/-- Predicate for the positive bucket of the balance loop. -/
def isPos (e : List Char) : Bool := decide (e ∈ positive_emotions)

/-- Predicate for the negative bucket (reached only past the positive check). -/
def isNegB (e : List Char) : Bool := !(isPos e) && decide (e ∈ negative_emotions)

/-- Predicate for the neutral bucket (everything else). -/
def isNeuB (e : List Char) : Bool := !(isPos e) && !(decide (e ∈ negative_emotions))

theorem foldl_tally_pos (recent : List (List Char)) (b : EmotionalBalance) :
    (recent.foldl tallyStep b).positive = b.positive + recent.countP isPos := by
  induction recent generalizing b with
  | nil => simp
  | cons e rest ih =>
    rw [List.foldl_cons, ih, List.countP_cons]
    unfold tallyStep isPos
    by_cases h1 : e ∈ positive_emotions
    · simp [h1]
      try omega
    · by_cases h2 : e ∈ negative_emotions
      · simp [h1, h2]
        try omega
      · simp [h1, h2]
        try omega

theorem foldl_tally_neg (recent : List (List Char)) (b : EmotionalBalance) :
    (recent.foldl tallyStep b).negative = b.negative + recent.countP isNegB := by
  induction recent generalizing b with
  | nil => simp
  | cons e rest ih =>
    rw [List.foldl_cons, ih, List.countP_cons]
    unfold tallyStep isNegB isPos
    by_cases h1 : e ∈ positive_emotions
    · simp [h1]
      try omega
    · by_cases h2 : e ∈ negative_emotions
      · simp [h1, h2]
        try omega
      · simp [h1, h2]
        try omega

theorem foldl_tally_neu (recent : List (List Char)) (b : EmotionalBalance) :
    (recent.foldl tallyStep b).neutral = b.neutral + recent.countP isNeuB := by
  induction recent generalizing b with
  | nil => simp
  | cons e rest ih =>
    rw [List.foldl_cons, ih, List.countP_cons]
    unfold tallyStep isNeuB isPos
    by_cases h1 : e ∈ positive_emotions
    · simp [h1]
      try omega
    · by_cases h2 : e ∈ negative_emotions
      · simp [h1, h2]
        try omega
      · simp [h1, h2]
        try omega

theorem foldl_tally_sum (recent : List (List Char)) (b : EmotionalBalance) :
    (recent.foldl tallyStep b).positive + (recent.foldl tallyStep b).neutral +
      (recent.foldl tallyStep b).negative =
    b.positive + b.neutral + b.negative + recent.length := by
  induction recent generalizing b with
  | nil => simp
  | cons e rest ih =>
    rw [List.foldl_cons, ih, List.length_cons]
    unfold tallyStep
    by_cases h1 : e ∈ positive_emotions
    · simp [h1]
      try omega
    · by_cases h2 : e ∈ negative_emotions
      · simp [h1, h2]
        try omega
      · simp [h1, h2]
        try omega

theorem lastN_length (n : Nat) (xs : List α) : (lastN n xs).length = min n xs.length := by
  rw [lastN, List.length_drop]
  omega

theorem lastN_append_len (xs ys : List α) : lastN ys.length (xs ++ ys) = ys := by
  rw [lastN, List.length_append]
  rw [show xs.length + ys.length - ys.length = xs.length by omega]
  exact List.drop_left xs ys

theorem stepBot_emotions (bot : MentalHealthChatbot) (m : MsgInput) :
    (stepBot bot m).context.emotions =
      bot.context.emotions ++ [classify_emotion m.classifyGw] := by
  unfold stepBot process_message add_turn
  simp [classify_emotion_ne_nil m.classifyGw]

theorem stepBot_count (bot : MentalHealthChatbot) (m : MsgInput) :
    (stepBot bot m).message_count = bot.message_count + 1 := rfl

theorem stepBot_memory_le (bot : MentalHealthChatbot) (m : MsgInput) :
    (stepBot bot m).context.memory.length ≤ 5 := by
  unfold stepBot process_message add_turn
  rw [lastN_length]
  simp [max_context]

theorem runMessages_memory_le (bot : MentalHealthChatbot) (ms : List MsgInput)
    (h : bot.context.memory.length ≤ 5) :
    (runMessages bot ms).context.memory.length ≤ 5 := by
  induction ms generalizing bot with
  | nil => exact h
  | cons m rest ih =>
    rw [runMessages, List.foldl_cons]
    exact ih (stepBot bot m) (stepBot_memory_le bot m)

theorem runMessages_emotions_len (bot : MentalHealthChatbot) (ms : List MsgInput) :
    (runMessages bot ms).context.emotions.length =
      bot.context.emotions.length + ms.length := by
  induction ms generalizing bot with
  | nil => simp [runMessages]
  | cons m rest ih =>
    rw [runMessages, List.foldl_cons]
    have := ih (stepBot bot m)
    rw [runMessages] at this
    rw [this, stepBot_emotions]
    simp
    omega

theorem runMessages_count (bot : MentalHealthChatbot) (ms : List MsgInput) :
    (runMessages bot ms).message_count = bot.message_count + ms.length := by
  induction ms generalizing bot with
  | nil => simp [runMessages]
  | cons m rest ih =>
    rw [runMessages, List.foldl_cons]
    have := ih (stepBot bot m)
    rw [runMessages] at this
    rw [this, stepBot_count]
    simp
    omega

theorem insights_urgent (cur : List Char) (es : List (List Char)) :
    (generate_mood_insights cur es).urgent_intervention_needed =
      if cur = chars "self_harm" then some true else none := by
  by_cases h1 : cur = chars "self_harm"
  · simp [generate_mood_insights, h1]
  · simp only [generate_mood_insights, if_neg h1]
    split
    · rfl
    · split <;> rfl

theorem insights_mood (cur : List Char) (es : List (List Char)) :
    (generate_mood_insights cur es).current_mood = cur := by
  simp only [generate_mood_insights]
  split
  · rfl
  · split
    · rfl
    · split <;> rfl

theorem insights_balance (cur : List Char) (es : List (List Char)) :
    (generate_mood_insights cur es).emotional_balance = tallyBalance (lastN 5 es) := by
  simp only [generate_mood_insights]
  split
  · rfl
  · split
    · rfl
    · split <;> rfl

theorem insights_suggestions_len (cur : List Char) (es : List (List Char)) :
    (generate_mood_insights cur es).suggestions.length = 3 := by
  simp only [generate_mood_insights]
  split
  · rfl
  · split
    · rfl
    · split <;> rfl

theorem insights_risk_mem (cur : List Char) (es : List (List Char)) :
    (generate_mood_insights cur es).risk_level ∈
      [chars "low", chars "moderate", chars "high"] := by
  simp only [generate_mood_insights]
  split
  · simp
  · split
    · simp
    · split <;> simp

theorem isNegB_eq (e : List Char) : isNegB e = decide (e ∈ negative_emotions) := by
  unfold isNegB isPos
  by_cases h : e ∈ positive_emotions
  · have he : e = chars "positive" := by simpa [positive_emotions] using h
    subst he
    simp [h]
    decide
  · simp [h]

theorem balance_sum (cur : List Char) (es : List (List Char)) :
    (generate_mood_insights cur es).emotional_balance.positive +
      (generate_mood_insights cur es).emotional_balance.neutral +
      (generate_mood_insights cur es).emotional_balance.negative = min 5 es.length := by
  simp only [insights_balance, tallyBalance]
  rw [foldl_tally_sum]
  simp [lastN_length]

theorem process_insights (bot : MentalHealthChatbot) (m : MsgInput) :
    (process_message bot m).2.data.mood_insights =
      generate_mood_insights (classify_emotion m.classifyGw)
        (bot.context.emotions ++ [classify_emotion m.classifyGw]) := by
  unfold process_message add_turn
  simp [classify_emotion_ne_nil m.classifyGw]

theorem process_urgent (bot : MentalHealthChatbot) (m : MsgInput) :
    (process_message bot m).2.data.urgent_intervention_needed =
      ((process_message bot m).2.data.mood_insights.urgent_intervention_needed).getD
        false := rfl

theorem insights_risk_neutral (es : List (List Char)) :
    (generate_mood_insights (chars "neutral") es).risk_level = chars "low" := by
  simp only [generate_mood_insights]
  rw [if_neg (by decide), if_neg (by decide), if_neg (by decide)]

/-- A context whose bounded history is exactly at capacity. -/
def blankTurn : Turn := ⟨[], [], [], []⟩

def ctx5 : ConversationContext := ⟨List.replicate 5 blankTurn, []⟩

/-! ## Claims -/

/-- C1: for every emotion-log window, deriving mood insights with current
label `self_harm` yields risk_level "high", the urgent-intervention key set to
True, and the fixed 3-item suggestion list whose entries include a
crisis-hotline prompt. -/
theorem C1_self_harm_high_risk (es : List (List Char)) :
    (generate_mood_insights (chars "self_harm") es).risk_level = chars "high" ∧
    (generate_mood_insights (chars "self_harm") es).urgent_intervention_needed =
      some true ∧
    (generate_mood_insights (chars "self_harm") es).suggestions =
      self_harm_suggestions ∧
    self_harm_suggestions.length = 3 ∧
    ∃ s ∈ self_harm_suggestions, hasSub (chars "crisis hotline") s = true := by
  refine ⟨?_, ?_, ?_, rfl, ?_⟩
  · simp [generate_mood_insights]
  · simp [generate_mood_insights]
  · simp [generate_mood_insights]
  · refine ⟨chars "üö® Please reach out to a crisis hotline immediately.", ?_, ?_⟩
    · simp [self_harm_suggestions]
    · decide

/-- C2: the stored turn history never holds more than 5 turns over any
sequence of processed messages, and appending a turn to a history of 5 drops
exactly the oldest turn, keeping the other 4 in order. -/
theorem C2_bounded_history :
    (∀ ms : List MsgInput,
        (runMessages MentalHealthChatbot.init ms).context.memory.length ≤ 5) ∧
    (∀ (ctx : ConversationContext) (ts u b e : List Char),
        ctx.memory.length = 5 →
        (add_turn ctx ts u b e).memory = ctx.memory.tail ++ [⟨ts, u, b, e⟩]) := by
  constructor
  · intro ms
    exact runMessages_memory_le MentalHealthChatbot.init ms (Nat.zero_le 5)
  · intro ctx ts u b e h
    unfold add_turn lastN
    simp only [List.length_append, h, List.length_singleton, max_context]
    rw [show 5 + 1 - 5 = 1 from rfl,
      List.drop_append_of_le_length (by rw [h]; omega), List.drop_one]

/-- C2 witness: on a concrete 5-turn history, appending evicts the oldest. -/
theorem C2_bounded_history_witness :
    (runMessages MentalHealthChatbot.init []).context.memory.length ≤ 5 ∧
    (add_turn ctx5 [] [] [] (chars "neutral")).memory =
      ctx5.memory.tail ++ [⟨[], [], [], chars "neutral"⟩] :=
  ⟨C2_bounded_history.1 [], C2_bounded_history.2 ctx5 [] [] [] (chars "neutral") rfl⟩

/-- C3: emotion classification strips and lower-cases the raw completion, then
returns the first of the six categories — in the order depression, anxiety,
anger, self_harm, positive, neutral — contained in it as a substring; with no
containment, or when the gateway call raises, it returns `neutral`. -/
theorem C3_classification_parse :
    emotion_categories =
      [chars "depression", chars "anxiety", chars "anger",
       chars "self_harm", chars "positive", chars "neutral"] ∧
    classify_emotion GatewayResult.err = chars "neutral" ∧
    ∀ raw : List Char,
      classify_emotion (GatewayResult.ok raw) =
        ((emotion_categories.find? fun c =>
            hasSub c (toLowerL (stripL raw))).getD (chars "neutral")) :=
  ⟨rfl, rfl, fun raw => classifyLoop_eq_find emotion_categories (toLowerL (stripL raw))⟩

/-- C4: the emotional_balance counts partition the last 5 logged labels into
positive = membership in {positive}, negative = membership in
{depression, anxiety, anger, self_harm}, neutral = everything else; they sum
to min 5 (log length), and in `process_message` the log at derivation time —
the current label having just been appended — has length (messages so far)+1,
so the counts of the returned insights sum to min 5 (messages processed). -/
theorem C4_balance_partition :
    (∀ (cur : List Char) (es : List (List Char)),
        (generate_mood_insights cur es).emotional_balance.positive =
          ((lastN 5 es).countP fun e => decide (e ∈ positive_emotions)) ∧
        (generate_mood_insights cur es).emotional_balance.negative =
          ((lastN 5 es).countP fun e => decide (e ∈ negative_emotions)) ∧
        (generate_mood_insights cur es).emotional_balance.neutral =
          ((lastN 5 es).countP fun e =>
            !(decide (e ∈ positive_emotions)) && !(decide (e ∈ negative_emotions))) ∧
        (generate_mood_insights cur es).emotional_balance.positive +
          (generate_mood_insights cur es).emotional_balance.neutral +
          (generate_mood_insights cur es).emotional_balance.negative =
          min 5 es.length) ∧
    (∀ (ms : List MsgInput) (m : MsgInput),
        (process_message (runMessages MentalHealthChatbot.init ms)
            m).2.data.mood_insights.emotional_balance.positive +
          (process_message (runMessages MentalHealthChatbot.init ms)
            m).2.data.mood_insights.emotional_balance.neutral +
          (process_message (runMessages MentalHealthChatbot.init ms)
            m).2.data.mood_insights.emotional_balance.negative =
          min 5 (ms.length + 1)) := by
  constructor
  · intro cur es
    refine ⟨?_, ?_, ?_, balance_sum cur es⟩
    · rw [insights_balance]
      unfold tallyBalance
      rw [foldl_tally_pos]
      rw [show isPos = (fun e => decide (e ∈ positive_emotions)) from rfl]
      simp
    · rw [insights_balance]
      unfold tallyBalance
      rw [foldl_tally_neg]
      have : isNegB = fun e => decide (e ∈ negative_emotions) := funext isNegB_eq
      rw [this]
      simp
    · rw [insights_balance]
      unfold tallyBalance
      rw [foldl_tally_neu]
      rw [show isNeuB = (fun e =>
        !(decide (e ∈ positive_emotions)) && !(decide (e ∈ negative_emotions))) from rfl]
      simp
  · intro ms m
    rw [process_insights, balance_sum]
    rw [List.length_append, runMessages_emotions_len]
    simp [MentalHealthChatbot.init, ConversationContext.init]

/-- C5: each processed message appends exactly one label to the unbounded
emotion log and increments the counter exactly once, so after every run from
a fresh session the log length equals the message count, which equals the
number of messages processed (classification failures still contribute
`neutral`, which is non-empty and hence appended). -/
theorem C5_emotion_log_length :
    (∀ (bot : MentalHealthChatbot) (m : MsgInput),
        (stepBot bot m).context.emotions =
          bot.context.emotions ++ [classify_emotion m.classifyGw] ∧
        (stepBot bot m).message_count = bot.message_count + 1) ∧
    (∀ ms : List MsgInput,
        (runMessages MentalHealthChatbot.init ms).context.emotions.length =
          ms.length ∧
        (runMessages MentalHealthChatbot.init ms).message_count = ms.length ∧
        (runMessages MentalHealthChatbot.init ms).context.emotions.length =
          (runMessages MentalHealthChatbot.init ms).message_count) := by
  refine ⟨fun bot m => ⟨stepBot_emotions bot m, stepBot_count bot m⟩, fun ms => ?_⟩
  have h1 := runMessages_emotions_len MentalHealthChatbot.init ms
  have h2 := runMessages_count MentalHealthChatbot.init ms
  rw [show MentalHealthChatbot.init.context.emotions.length = 0 from rfl,
    Nat.zero_add] at h1
  rw [show MentalHealthChatbot.init.message_count = 0 from rfl,
    Nat.zero_add] at h2
  exact ⟨h1, h2, by rw [h1, h2]⟩

/-- C6 counterexample: with current label `neutral`, the derived insights
dict does not carry the `urgent_intervention_needed` key at all, so the
structure does not contain that field with a boolean value. -/
theorem C6_counterexample :
    (generate_mood_insights (chars "neutral") []).urgent_intervention_needed =
      none := by
  rw [insights_urgent]
  decide

/-- C6 amended: the derived mood-insights structure always carries
current_mood (echoing the label), a risk_level among low/moderate/high, the
emotional_balance counts and a 3-item suggestion list, but the
urgent_intervention_needed key is present — with value True — only when the
current label is `self_harm`, and absent for every other label. -/
theorem C6_insight_fields (cur : List Char) (es : List (List Char)) :
    (generate_mood_insights cur es).current_mood = cur ∧
    (generate_mood_insights cur es).risk_level ∈
      [chars "low", chars "moderate", chars "high"] ∧
    (generate_mood_insights cur es).emotional_balance =
      tallyBalance (lastN 5 es) ∧
    (generate_mood_insights cur es).suggestions.length = 3 ∧
    (generate_mood_insights cur es).urgent_intervention_needed =
      (if cur = chars "self_harm" then some true else none) :=
  ⟨insights_mood cur es, insights_risk_mem cur es, insights_balance cur es,
   insights_suggestions_len cur es, insights_urgent cur es⟩

/-- C7 counterexample: the 500 payload built in the `/chat` route's except
branch carries no `session_stats` key, so its `data` does not have the
complete success schema. -/
theorem C7_counterexample :
    (chatDispatch Orchestration.raised).1 = 500 ∧
    (chatDispatch Orchestration.raised).2.data = some errorPayloadData ∧
    errorPayloadData.session_stats = none :=
  ⟨rfl, rfl, rfl⟩

/-- C7 amended: an unexpected orchestration failure yields a 500 response
whose body carries success=false, an error string, and a degraded data
payload with bot_response, mood_insights and urgent_intervention_needed =
false — but no session_stats, unlike every successful result, whose data
always carries session_stats. -/
theorem C7_degraded_payload :
    (chatDispatch Orchestration.raised).1 = 500 ∧
    (chatDispatch Orchestration.raised).2.success = false ∧
    (chatDispatch Orchestration.raised).2.error =
      some (chars "Server error during chat processing.") ∧
    (chatDispatch Orchestration.raised).2.data = some errorPayloadData ∧
    errorPayloadData.bot_response =
      chars "I\x27m having a technical issue. Please try again." ∧
    errorPayloadData.mood_insights.current_mood = chars "neutral" ∧
    errorPayloadData.mood_insights.risk_level = chars "low" ∧
    errorPayloadData.urgent_intervention_needed = false ∧
    errorPayloadData.session_stats = none ∧
    ∀ (bot : MentalHealthChatbot) (m : MsgInput),
      (chatDispatch (Orchestration.completed (process_message bot m).2)).1 = 200 ∧
      ((process_message bot m).2.data.session_stats).isSome = true :=
  ⟨rfl, rfl, rfl, rfl, rfl, rfl, rfl, rfl, rfl, fun _ _ => ⟨rfl, rfl⟩⟩

/-- C8: when the gateway raises on both calls, processing still succeeds:
the reply is the fixed apology string, the classified emotion is `neutral`,
and the derived risk level is low (so no urgent intervention). -/
theorem C8_gateway_failure_degrades (bot : MentalHealthChatbot)
    (u ts dur : List Char) :
    (process_message bot ⟨u, GatewayResult.err, GatewayResult.err, ts, dur⟩).2.success =
      true ∧
    (process_message bot
        ⟨u, GatewayResult.err, GatewayResult.err, ts, dur⟩).2.data.bot_response =
      apology ∧
    classify_emotion GatewayResult.err = chars "neutral" ∧
    (process_message bot
        ⟨u, GatewayResult.err, GatewayResult.err, ts,
          dur⟩).2.data.mood_insights.current_mood = chars "neutral" ∧
    (process_message bot
        ⟨u, GatewayResult.err, GatewayResult.err, ts,
          dur⟩).2.data.mood_insights.risk_level = chars "low" ∧
    (process_message bot
        ⟨u, GatewayResult.err, GatewayResult.err, ts,
          dur⟩).2.data.urgent_intervention_needed = false := by
  refine ⟨rfl, rfl, rfl, ?_, ?_, ?_⟩
  · rw [process_insights]
    exact insights_mood _ _
  · rw [process_insights]
    exact insights_risk_neutral _
  · rw [process_urgent, process_insights, insights_urgent]
    rw [show classify_emotion
        (MsgInput.mk u GatewayResult.err GatewayResult.err ts dur).classifyGw =
        chars "neutral" from rfl]
    rw [if_neg (by decide)]
    rfl

/-- C9: the context string handed to response generation is the last two
stored turns (most recent last), each formatted "User: …\nBot: …", joined by
a newline; in particular after a first exchange the context for the next
message contains that exchange's user text and bot reply. -/
theorem C9_context_last_two :
    (∀ (ctx : ConversationContext) (t : Turn), ctx.memory = [t] →
        joinNL (get_context ctx) = fmtTurn t) ∧
    (∀ (ctx : ConversationContext) (pre : List Turn) (t1 t2 : Turn),
        ctx.memory = pre ++ [t1, t2] →
        joinNL (get_context ctx) = fmtTurn t1 ++ chars "\n" ++ fmtTurn t2) ∧
    (∀ (u r ts dur : List Char) (gwc : GatewayResult),
        hasSub u (joinNL (get_context
          (stepBot MentalHealthChatbot.init
            ⟨u, gwc, GatewayResult.ok r, ts, dur⟩).context)) = true ∧
        hasSub r (joinNL (get_context
          (stepBot MentalHealthChatbot.init
            ⟨u, gwc, GatewayResult.ok r, ts, dur⟩).context)) = true) := by
  refine ⟨?_, ?_, ?_⟩
  · intro ctx t h
    rw [get_context, h]
    simp [lastN, joinNL]
  · intro ctx pre t1 t2 h
    rw [get_context, h, List.map_append]
    rw [show (2 : Nat) = (List.map fmtTurn [t1, t2]).length from rfl]
    rw [lastN_append_len]
    simp [joinNL, List.append_assoc]
  · intro u r ts dur gwc
    constructor
    · show hasSub u (chars "User: " ++ u ++ chars "\nBot: " ++ r) = true
      have := hasSub_of_split u (chars "User: ") (chars "\nBot: " ++ r)
      simpa [List.append_assoc] using this
    · show hasSub r (chars "User: " ++ u ++ chars "\nBot: " ++ r) = true
      have := hasSub_of_split r (chars "User: " ++ u ++ chars "\nBot: ") []
      simpa [List.append_assoc] using this

/-- C9 witness: the context string of concrete one-turn and three-turn
histories, via the claim's theorem. -/
theorem C9_context_last_two_witness :
    joinNL (get_context ⟨[⟨[], chars "hi", chars "yo", chars "neutral"⟩], []⟩) =
      fmtTurn ⟨[], chars "hi", chars "yo", chars "neutral"⟩ ∧
    joinNL (get_context ⟨[blankTurn,
        ⟨[], chars "u1", chars "b1", chars "neutral"⟩,
        ⟨[], chars "u2", chars "b2", chars "neutral"⟩], []⟩) =
      fmtTurn ⟨[], chars "u1", chars "b1", chars "neutral"⟩ ++ chars "\n" ++
        fmtTurn ⟨[], chars "u2", chars "b2", chars "neutral"⟩ :=
  ⟨C9_context_last_two.1 _ _ rfl,
   C9_context_last_two.2.1 _ [blankTurn] _ _ rfl⟩

/-- C10: the top-level urgent_intervention_needed of a processed message's
result — read from the insights dict with a False default — is True exactly
when the message's classified emotion is `self_harm`. -/
theorem C10_urgent_iff_self_harm (bot : MentalHealthChatbot) (m : MsgInput) :
    ((process_message bot m).2.data.urgent_intervention_needed = true ↔
      classify_emotion m.classifyGw = chars "self_harm") := by
  rw [process_urgent, process_insights, insights_urgent]
  by_cases h : classify_emotion m.classifyGw = chars "self_harm"
  · simp [h]
  · simp [h]

end MHB
